import Mathlib

/-!
Verification of `sg::scope_guard` (src/scope_guard.hpp) against its
natural-language specification.

The C++ class is

  template<typename Callback>
  class scope_guard {
    explicit scope_guard(Callback&& callback);   -- stores callback, m_active = true
    scope_guard(scope_guard&& other);            -- takes callback and flag, deactivates other
    ~scope_guard();                              -- if (m_active) m_callback();
    Callback m_callback;
    bool m_active;
  };
  template<typename Callback>
  scope_guard<Callback> make_scope_guard(Callback&& resetter);

We embed the class shallowly: a guard is a record of the two data members;
the constructor, move constructor and destructor become pure functions.
Since the only observable effect of a guard is which callbacks it invokes,
each operation additionally returns its invocation trace, a `List Callback`
recording the calls it performed, in order.
-/

namespace sg

/-- A `scope_guard<Callback>` object: the two data members of the C++ class
(src/scope_guard.hpp, lines 32-33). -/
structure scope_guard (Callback : Type) where
  m_callback : Callback
  m_active : Bool
deriving DecidableEq, Repr

/-- The converting constructor `scope_guard(Callback&&)` (src/scope_guard.hpp,
lines 43-48): it initializes `m_callback` from the argument and `m_active`
to `true`.  Its body is empty, so its invocation trace is `[]`.  Returns the
constructed object together with that trace. -/
def scope_guard.construct {Callback : Type} (callback : Callback) :
    scope_guard Callback × List Callback :=
  (⟨callback, true⟩, [])

/-- The factory `make_scope_guard` (src/scope_guard.hpp, lines 68-72): it
forwards its argument to the `scope_guard` constructor and returns the
resulting guard. -/
def make_scope_guard {Callback : Type} (resetter : Callback) :
    scope_guard Callback :=
  (scope_guard.construct resetter).1

/-- The invocation trace of `make_scope_guard` itself: the factory only
forwards into the constructor, so its trace is the constructor's trace. -/
def make_scope_guard_trace {Callback : Type} (resetter : Callback) :
    List Callback :=
  (scope_guard.construct resetter).2

/-- The destructor `~scope_guard` (src/scope_guard.hpp, lines 51-56):
`if (m_active) m_callback();`.  Its result is its invocation trace: the
single stored callback when the guard is active, nothing otherwise. -/
def scope_guard.destruct {Callback : Type} (g : scope_guard Callback) :
    List Callback :=
  if g.m_active then [g.m_callback] else []

/-- The move constructor `scope_guard(scope_guard&& other)`
(src/scope_guard.hpp, lines 59-65): the new object takes `other`'s callback
and copies `other.m_active`; the body then sets `other.m_active = false`.
Returns `(destination, source after the move)`.  In C++ the callback storage
is moved out of `other`; the moved-from source retains some valid value,
which we keep as the original value — it is never invoked, because the
source's flag is cleared. -/
def scope_guard.moveConstruct {Callback : Type} (other : scope_guard Callback) :
    scope_guard Callback × scope_guard Callback :=
  (⟨other.m_callback, other.m_active⟩, ⟨other.m_callback, false⟩)

/-- Destructor for a guard whose callback is an effectful, fallible action
on a state `σ` that can fail with an error `ε`.  This is the same
`if (m_active) m_callback();` as `scope_guard.destruct`, but run against the
state: if the guard is inactive the state passes through untouched, and if
the callback fails the destructor body contains no handler, so the failure
is returned as-is. -/
def scope_guard.destructRun {σ ε : Type} (g : scope_guard (σ → Except ε σ))
    (s : σ) : Except ε σ :=
  if g.m_active then g.m_callback s else Except.ok s

/-- A step in the life of the family of guards that ever held one concrete
callback: either a new guard is move-constructed from the live guard at
index `src`, or the live guard at index `i` is destroyed. -/
inductive GuardOp : Type
  | move (src : Nat)
  | destroy (i : Nat)
deriving DecidableEq, Repr

/-- State of the family of guards that ever held one concrete callback:
`guards` lists every instance created so far (`none` once destroyed), and
`invocations` counts how many destructor runs invoked the callback. -/
structure SysState where
  guards : List (Option (scope_guard Unit))
  invocations : Nat
deriving DecidableEq, Repr

/-- One operation applied to the family state, interpreted through the
embedded class operations: `move src` runs the move constructor
`scope_guard.moveConstruct` on the live guard at `src` (appending the
destination as a new instance), `destroy i` runs the destructor
`scope_guard.destruct` on the live guard at `i` and counts its invocations.
An operation naming a dead or out-of-range index is a no-op: such a call is
not available in C++. -/
def stepOp (s : SysState) : GuardOp → SysState
  | GuardOp.move src =>
    match s.guards[src]? with
    | some (some g) =>
        ⟨(s.guards.set src (some (scope_guard.moveConstruct g).2)) ++
            [some (scope_guard.moveConstruct g).1],
          s.invocations⟩
    | _ => s
  | GuardOp.destroy i =>
    match s.guards[i]? with
    | some (some g) =>
        ⟨s.guards.set i none,
          s.invocations + (scope_guard.destruct g).length⟩
    | _ => s

/-- The family state right after `make_scope_guard` created the first and
only guard holding the callback: one live, active instance, no invocation
yet. -/
def initState : SysState :=
  ⟨[some (make_scope_guard ())], 0⟩

/-- Run a sequence of guard operations from a family state. -/
def runFrom (s : SysState) (ops : List GuardOp) : SysState :=
  ops.foldl stepOp s

/-- Run a sequence of guard operations from the initial single-guard
state. -/
def runOps (ops : List GuardOp) : SysState :=
  runFrom initState ops

/-- A live instance that is still active, i.e. whose destructor would
invoke the callback. -/
def isArmed (o : Option (scope_guard Unit)) : Bool :=
  match o with
  | some g => g.m_active
  | none => false

/-- How many instances of the family are still active. -/
def activeCount (s : SysState) : Nat :=
  s.guards.countP isArmed

/-- The guard at index `i` is disarmed: it exists (or existed) there with
`m_active = false`, or has already been destroyed. -/
def disarmedAt (s : SysState) (i : Nat) : Bool :=
  match s.guards[i]? with
  | some (some g) => !g.m_active
  | some none => true
  | none => false

/-- Strictly nested scopes, one guard per callback in the list: the head
guard is constructed in the outermost scope, the rest in scopes nested
inside it.  Exiting all the scopes destroys the inner guards first (C++
destroys block-locals at the closing brace, innermost block first), so the
total invocation trace is the trace of the nested scopes followed by the
trace of the head guard's destructor. -/
def nestedScopes {Callback : Type} : List Callback → List Callback
  | [] => []
  | cb :: rest =>
    let g := make_scope_guard cb
    nestedScopes rest ++ scope_guard.destruct g

end sg

open sg

/-- C1: constructing a guard from a callback `f` invokes `f` zero times
(both the constructor's and the factory's traces are empty), and the
destructor of the constructed guard invokes `f` exactly once (its trace is
exactly `[f]`). -/
theorem sg_C1_construct_zero_destruct_once {Callback : Type} (f : Callback) :
    (scope_guard.construct f).2 = [] ∧
    make_scope_guard_trace f = [] ∧
    scope_guard.destruct (make_scope_guard f) = [f] := by
  refine ⟨rfl, rfl, ?_⟩
  simp [make_scope_guard, scope_guard.construct, scope_guard.destruct]

/-- C2: if a guard `g1` whose callback has not already been transferred
(`m_active = true`) is move-constructed into `g2`, then destroying the
moved-from `g1` invokes the callback zero times, and destroying `g2`
invokes it exactly once. -/
theorem sg_C2_move_source_none_dest_once {Callback : Type}
    (g1 : scope_guard Callback) (h : g1.m_active = true) :
    scope_guard.destruct (scope_guard.moveConstruct g1).2 = [] ∧
    scope_guard.destruct (scope_guard.moveConstruct g1).1 = [g1.m_callback] := by
  simp [scope_guard.moveConstruct, scope_guard.destruct, h]

/-- Witness for C2 at a concrete guard holding callback `7`. -/
theorem sg_C2_move_source_none_dest_once_witness :
    scope_guard.destruct (scope_guard.moveConstruct (make_scope_guard 7)).2 = [] ∧
    scope_guard.destruct (scope_guard.moveConstruct (make_scope_guard 7)).1 = [7] :=
  sg_C2_move_source_none_dest_once (make_scope_guard 7) rfl

/-- C3: the move constructor transfers the callback into the destination,
copies the source's `m_active` flag into the destination, and leaves the
source's flag `false`; so the destination's flag equals the source's
pre-move flag and the source's flag is `false` afterwards. -/
theorem sg_C3_move_ctor_steps {Callback : Type} (other : scope_guard Callback) :
    (scope_guard.moveConstruct other).1.m_callback = other.m_callback ∧
    (scope_guard.moveConstruct other).1.m_active = other.m_active ∧
    (scope_guard.moveConstruct other).2.m_active = false :=
  ⟨rfl, rfl, rfl⟩

/-- C8: for guards declared in strictly nested scopes (outermost first in
the list), exiting all scopes yields the invocation trace in exactly the
reverse of declaration order — last constructed, first finalized. -/
theorem sg_C8_nested_scopes_reverse_order {Callback : Type}
    (cbs : List Callback) :
    nestedScopes cbs = cbs.reverse := by
  induction cbs with
  | nil => rfl
  | cons cb rest ih =>
      simp [nestedScopes, ih, make_scope_guard, scope_guard.construct,
        scope_guard.destruct]

/-- C10: move-constructing from a source guard whose flag is already
`false` yields a destination whose flag is also `false` (the flag is
copied, not set to `true`), and neither the moved-from source's nor the
destination's destructor invokes the callback. -/
theorem sg_C10_move_from_inactive {Callback : Type}
    (g : scope_guard Callback) (h : g.m_active = false) :
    (scope_guard.moveConstruct g).1.m_active = false ∧
    scope_guard.destruct (scope_guard.moveConstruct g).1 = [] ∧
    scope_guard.destruct (scope_guard.moveConstruct g).2 = [] := by
  simp [scope_guard.moveConstruct, scope_guard.destruct, h]

/-- Witness for C10 at the inactive guard `⟨3, false⟩`. -/
theorem sg_C10_move_from_inactive_witness :
    (scope_guard.moveConstruct (scope_guard.mk 3 false)).1.m_active = false ∧
    scope_guard.destruct (scope_guard.moveConstruct (scope_guard.mk 3 false)).1 = [] ∧
    scope_guard.destruct (scope_guard.moveConstruct (scope_guard.mk 3 false)).2 = [] :=
  sg_C10_move_from_inactive (scope_guard.mk 3 false) rfl

/-- Helper: updating one position of a list changes a `countP` count by
replacing the old element's contribution with the new element's. -/
theorem countP_set_balance {α : Type} (p : α → Bool) :
    ∀ (l : List α) (i : Nat) (a b : α), l[i]? = some a →
      (l.set i b).countP p + (if p a then 1 else 0) =
        l.countP p + (if p b then 1 else 0)
  | [], i, _, _, h => by simp at h
  | x :: t, 0, a, b, h => by
      simp at h
      subst h
      simp [List.countP_cons]
      omega
  | x :: t, i + 1, a, b, h => by
      simp at h
      have ih := countP_set_balance p t i a b h
      simp [List.countP_cons]
      omega

/-- Helper: the destructor performs one invocation when the guard is
active, none otherwise. -/
theorem destruct_length {Callback : Type} (g : scope_guard Callback) :
    (scope_guard.destruct g).length = if g.m_active then 1 else 0 := by
  cases h : g.m_active <;> simp [scope_guard.destruct, h]

/-- Helper: every guard operation preserves the sum of performed
invocations and still-armed instances. -/
theorem stepOp_preserves_sum (s : SysState) (op : GuardOp) :
    (stepOp s op).invocations + activeCount (stepOp s op) =
      s.invocations + activeCount s := by
  cases op with
  | move src =>
      cases hg : s.guards[src]? with
      | none => simp [stepOp, hg]
      | some o =>
          cases o with
          | none => simp [stepOp, hg]
          | some g =>
              have hbal := countP_set_balance isArmed s.guards src (some g)
                (some (scope_guard.moveConstruct g).2) hg
              simp [stepOp, hg, activeCount, List.countP_append,
                List.countP_cons, scope_guard.moveConstruct, isArmed]
                at hbal ⊢
              cases hm : g.m_active <;> simp [hm] at hbal ⊢ <;> omega
  | destroy i =>
      cases hg : s.guards[i]? with
      | none => simp [stepOp, hg]
      | some o =>
          cases o with
          | none => simp [stepOp, hg]
          | some g =>
              have hbal := countP_set_balance isArmed s.guards i (some g)
                none hg
              simp [stepOp, hg, activeCount, destruct_length, isArmed]
                at hbal ⊢
              cases hm : g.m_active <;> simp [hm] at hbal ⊢ <;> omega

/-- Helper: running any list of guard operations preserves the sum of
performed invocations and still-armed instances. -/
theorem runFrom_preserves_sum (ops : List GuardOp) : ∀ s : SysState,
    (runFrom s ops).invocations + activeCount (runFrom s ops) =
      s.invocations + activeCount s := by
  induction ops with
  | nil => intro s; rfl
  | cons op rest ih =>
      intro s
      have h1 := stepOp_preserves_sum s op
      have h2 := ih (stepOp s op)
      simp only [runFrom, List.foldl] at h2 ⊢
      omega

/-- C4: for every sequence of guard operations (move-constructions and
destructions in any order, starting from the single guard the factory
created for a concrete callback), the callback is invoked by at most one
guard finalization across all instances that ever held it. -/
theorem sg_C4_at_most_one_invocation (ops : List GuardOp) :
    (runOps ops).invocations ≤ 1 := by
  have h := runFrom_preserves_sum ops initState
  have hinit : initState.invocations + activeCount initState = 1 := rfl
  simp only [runOps] at *
  omega

/-- C5: if a guard is active, its destructor behaves exactly as if the
callback had been invoked inline at the scope-exit site (the destructor's
result is the callback's result, unaltered), and in particular any error
the callback raises is propagated as-is, neither caught nor suppressed nor
altered. -/
theorem sg_C5_error_propagates {σ ε : Type} (g : scope_guard (σ → Except ε σ))
    (s : σ) (h : g.m_active = true) :
    scope_guard.destructRun g s = g.m_callback s ∧
    ∀ e : ε, g.m_callback s = Except.error e →
      scope_guard.destructRun g s = Except.error e := by
  constructor
  · simp [scope_guard.destructRun, h]
  · intro e he
    simp [scope_guard.destructRun, h, he]

/-- Witness for C5: an active guard whose callback fails with error `42`
finalizes to exactly that error. -/
theorem sg_C5_error_propagates_witness :
    scope_guard.destructRun
        (scope_guard.mk (fun _ : Nat => (Except.error 42 : Except Nat Nat)) true)
        0 =
      Except.error 42 :=
  (sg_C5_error_propagates
      (scope_guard.mk (fun _ : Nat => (Except.error 42 : Except Nat Nat)) true)
      0 rfl).2 42 rfl

/-- Helper: no guard operation re-arms a disarmed guard slot. -/
theorem stepOp_preserves_disarmed (s : SysState) (op : GuardOp) (i : Nat)
    (h : disarmedAt s i = true) : disarmedAt (stepOp s op) i = true := by
  have hlt : i < s.guards.length := by
    by_contra hge
    have hnone : s.guards[i]? = none :=
      List.getElem?_eq_none (Nat.le_of_not_lt hge)
    simp [disarmedAt, hnone] at h
  cases op with
  | move src =>
      cases hg : s.guards[src]? with
      | none => simpa [stepOp, hg] using h
      | some o =>
          cases o with
          | none => simpa [stepOp, hg] using h
          | some g =>
              by_cases hi : i = src
              · subst hi
                have hset : (s.guards.set i
                      (some (scope_guard.moveConstruct g).2))[i]? =
                    some (some (scope_guard.moveConstruct g).2) :=
                  List.getElem?_set_eq_of_lt _ hlt
                have happ : ((s.guards.set i
                        (some (scope_guard.moveConstruct g).2)) ++
                      [some (scope_guard.moveConstruct g).1])[i]? =
                    some (some (scope_guard.moveConstruct g).2) := by
                  rw [List.getElem?_append_left, hset]
                  simpa [List.length_set] using hlt
                simp only [stepOp, hg, disarmedAt]
                rw [happ]
                simp [scope_guard.moveConstruct]
              · have hset : (s.guards.set src
                      (some (scope_guard.moveConstruct g).2))[i]? =
                    s.guards[i]? :=
                  List.getElem?_set_ne (Ne.symm hi)
                have happ : ((s.guards.set src
                        (some (scope_guard.moveConstruct g).2)) ++
                      [some (scope_guard.moveConstruct g).1])[i]? =
                    s.guards[i]? := by
                  rw [List.getElem?_append_left, hset]
                  simpa [List.length_set] using hlt
                simpa [stepOp, hg, disarmedAt, happ] using h
  | destroy j =>
      cases hg : s.guards[j]? with
      | none => simpa [stepOp, hg] using h
      | some o =>
          cases o with
          | none => simpa [stepOp, hg] using h
          | some g =>
              by_cases hi : i = j
              · subst hi
                have hset : (s.guards.set i none)[i]? = some none :=
                  List.getElem?_set_eq_of_lt _ hlt
                simp [stepOp, hg, disarmedAt, hset]
              · have hset : (s.guards.set j none)[i]? = s.guards[i]? :=
                  List.getElem?_set_ne (Ne.symm hi)
                simpa [stepOp, hg, disarmedAt, hset] using h

/-- Helper: destroying a disarmed guard performs no invocation. -/
theorem destroy_disarmed_no_invocation (s : SysState) (i : Nat)
    (h : disarmedAt s i = true) :
    (stepOp s (GuardOp.destroy i)).invocations = s.invocations := by
  cases hg : s.guards[i]? with
  | none => simp [stepOp, hg]
  | some o =>
      cases o with
      | none => simp [stepOp, hg]
      | some g =>
          have hact : g.m_active = false := by
            simpa [disarmedAt, hg] using h
          simp [stepOp, hg, destruct_length, hact]

/-- C9: the disarmed state is terminal.  Once the guard at slot `i` has its
flag `false` (or is already destroyed), no sequence of further guard
operations ever returns that slot to the active state, and destroying it
never invokes the callback. -/
theorem sg_C9_disarmed_terminal (s : SysState) (i : Nat) (ops : List GuardOp)
    (h : disarmedAt s i = true) :
    disarmedAt (runFrom s ops) i = true ∧
    (stepOp (runFrom s ops) (GuardOp.destroy i)).invocations =
      (runFrom s ops).invocations := by
  have hpre : disarmedAt (runFrom s ops) i = true := by
    induction ops generalizing s with
    | nil => exact h
    | cons op rest ih => exact ih (stepOp s op) (stepOp_preserves_disarmed s op i h)
  exact ⟨hpre, destroy_disarmed_no_invocation _ i hpre⟩

/-- Witness for C9: after moving out of guard 0, slot 0 is disarmed and
stays disarmed through further moves and destructions, and destroying it
adds no invocation. -/
theorem sg_C9_disarmed_terminal_witness :
    disarmedAt (runOps [GuardOp.move 0]) 0 = true ∧
    (disarmedAt
        (runFrom (runOps [GuardOp.move 0]) [GuardOp.move 1, GuardOp.destroy 1])
        0 = true ∧
      (stepOp
          (runFrom (runOps [GuardOp.move 0])
            [GuardOp.move 1, GuardOp.destroy 1])
          (GuardOp.destroy 0)).invocations =
        (runFrom (runOps [GuardOp.move 0])
          [GuardOp.move 1, GuardOp.destroy 1]).invocations) :=
  ⟨by decide,
    sg_C9_disarmed_terminal (runOps [GuardOp.move 0]) 0
      [GuardOp.move 1, GuardOp.destroy 1] (by decide)⟩

namespace sg

/-- A small universe of C++ types covering the callbacks the repository
exercises (src/catch_tests.cpp): the function type `void()`, pointers,
lvalue references, `std::function<void()>`, `std::reference_wrapper`,
closure (lambda/functor) types of a given call arity, and a non-callable
scalar. -/
inductive CppType : Type
  | voidFn
  | ptrTo (t : CppType)
  | refTo (t : CppType)
  | stdFunctionVoid
  | refWrapper (t : CppType)
  | closure (arity : Nat)
  | cppInt
deriving DecidableEq, Repr

/-- The value category of the argument expression handed to
`make_scope_guard`. -/
inductive ValueCat : Type
  | lvalue
  | rvalue
deriving DecidableEq, Repr

/-- Whether a C++ type is an lvalue reference type. -/
def isRefType : CppType → Bool
  | CppType.refTo _ => true
  | _ => false

/-- The type `make_scope_guard` (src/scope_guard.hpp, lines 68-72) deduces
for its template parameter `Callback`, and therefore the declared type of
the stored member `Callback m_callback` (line 32).  `Callback&&` is a
forwarding reference, so per C++ template argument deduction an lvalue
argument of type `T` deduces `Callback = T&` and an rvalue argument
deduces `Callback = T`. -/
def deducedCallback (t : CppType) : ValueCat → CppType
  | ValueCat.lvalue => CppType.refTo t
  | ValueCat.rvalue => t

/-- `std::decay_t` on our universe: lvalue references are stripped and
function types decay to pointer-to-function; other types are unchanged. -/
def decayType : CppType → CppType
  | CppType.refTo t => decayType t
  | CppType.voidFn => CppType.ptrTo CppType.voidFn
  | t => t

/-- A member of this type owns its value: a reference member merely refers
to an object owned elsewhere. -/
def isOwnedValueStorage (t : CppType) : Bool :=
  !isRefType t

/-- A function-pointer-like handle to the plain function type: a pointer
or reference to `void()`. -/
def isFunctionHandle (t : CppType) : Bool :=
  t == CppType.ptrTo CppType.voidFn || t == CppType.refTo CppType.voidFn

/-- Whether an lvalue of type `t` is callable with zero arguments and a
discarded result — the Lvalue-Callable condition of the C++ standard for
the argument list `()` with return type `void`.  Functions, pointers and
references to them, `std::function<void()>`, reference wrappers of
callables, and nullary closures qualify. -/
def lvalueCallableZero : CppType → Bool
  | CppType.voidFn => true
  | CppType.ptrTo CppType.voidFn => true
  | CppType.ptrTo _ => false
  | CppType.refTo t => lvalueCallableZero t
  | CppType.stdFunctionVoid => true
  | CppType.refWrapper t => lvalueCallableZero t
  | CppType.closure n => n == 0
  | CppType.cppInt => false

/-- The constraint the guard constructor places on `Callback`
(src/scope_guard.hpp, lines 24-25):
`std::is_constructible<std::function<void()>, Callback>::value`.  Per the
C++17 standard, the converting constructor of `std::function<void()>`
participates in overload resolution exactly when an lvalue of the source
type is callable for the argument list `()` with the result discarded, so
on this universe the trait evaluates to the Lvalue-Callable condition. -/
def is_constructible_function_void (c : CppType) : Bool :=
  lvalueCallableZero c

/-- Type-level outcome of asking for a guard over callback type `c`: the
`enable_if` on the constructor (src/scope_guard.hpp, lines 24-26) makes
the constructor exist only when the constraint holds, so the program is
accepted (`some`, carrying the instantiated callback type) exactly then,
and rejected while type checking (`none`) otherwise — never at runtime. -/
def tryMakeScopeGuardType (c : CppType) : Option CppType :=
  if is_constructible_function_void c then some c else none

/-- A type that is directly (not through a reference or wrapper) a
zero-argument callable value: a plain function, a function pointer,
a `std::function<void()>`, or a nullary closure. -/
def directZeroArgCallable : CppType → Bool
  | CppType.voidFn => true
  | CppType.ptrTo CppType.voidFn => true
  | CppType.stdFunctionVoid => true
  | CppType.closure n => n == 0
  | _ => false

/-- The acceptance condition in the words of the specification: "any
callable value, reference, or reference-wrapper that satisfies a callable
with no arguments constraint" — a zero-argument callable, reached through
any chain of references and reference wrappers. -/
def specZeroArgInvocable : CppType → Bool
  | CppType.refTo t => specZeroArgInvocable t
  | CppType.refWrapper t => specZeroArgInvocable t
  | t => directZeroArgCallable t

end sg

/-- Counterexample to C6 as stated: for an lvalue `std::function<void()>`
argument (the repository's own test case "An lvalue std::function ... can
be used to create a scope_guard"), the deduced storage type is a reference
to `std::function<void()>`, which is not the decayed value type, and the
guard does not own the stored callback — nothing is moved in. -/
theorem sg_C6_decay_counterexample :
    deducedCallback CppType.stdFunctionVoid ValueCat.lvalue ≠
        decayType CppType.stdFunctionVoid ∧
    isOwnedValueStorage
        (deducedCallback CppType.stdFunctionVoid ValueCat.lvalue) = false := by
  constructor
  · intro h
    simp [deducedCallback, decayType] at h
  · rfl

/-- C6 as amended: the guard stores the callback at the type deduced by
forwarding-reference deduction, not at the decayed type.  An rvalue
argument of (non-reference) type `T` is moved in and stored as an owned
value of type `T`; an lvalue argument is stored by reference (`T&`), and
in particular a plain function lvalue is stored as a function-reference
handle. -/
theorem sg_C6_storage_amended (T : CppType) (h : isRefType T = false) :
    deducedCallback T ValueCat.rvalue = T ∧
    isOwnedValueStorage (deducedCallback T ValueCat.rvalue) = true ∧
    deducedCallback T ValueCat.lvalue = CppType.refTo T ∧
    isOwnedValueStorage (deducedCallback T ValueCat.lvalue) = false ∧
    isFunctionHandle (deducedCallback CppType.voidFn ValueCat.lvalue) = true := by
  refine ⟨rfl, ?_, rfl, rfl, rfl⟩
  simpa [deducedCallback, isOwnedValueStorage] using congrArg Bool.not h

/-- Witness for amended C6 at the concrete type `std::function<void()>`. -/
theorem sg_C6_storage_amended_witness :
    deducedCallback CppType.stdFunctionVoid ValueCat.rvalue =
        CppType.stdFunctionVoid ∧
    isOwnedValueStorage
        (deducedCallback CppType.stdFunctionVoid ValueCat.rvalue) = true ∧
    deducedCallback CppType.stdFunctionVoid ValueCat.lvalue =
        CppType.refTo CppType.stdFunctionVoid ∧
    isOwnedValueStorage
        (deducedCallback CppType.stdFunctionVoid ValueCat.lvalue) = false ∧
    isFunctionHandle (deducedCallback CppType.voidFn ValueCat.lvalue) = true :=
  sg_C6_storage_amended CppType.stdFunctionVoid rfl

/-- C7: guard construction is accepted for exactly those callback types
that are zero-argument invocable in the specification's sense (a callable
value, reference, or reference wrapper invocable with no arguments); for
every other type the constructor is removed by its `enable_if` and the
request is rejected at type-check time (`none`), never at runtime. -/
theorem sg_C7_constraint_exact (c : CppType) :
    (tryMakeScopeGuardType c).isSome = specZeroArgInvocable c := by
  have key : lvalueCallableZero c = specZeroArgInvocable c := by
    induction c with
    | refTo t ih => simpa [lvalueCallableZero, specZeroArgInvocable] using ih
    | refWrapper t ih => simpa [lvalueCallableZero, specZeroArgInvocable] using ih
    | ptrTo t _ =>
        cases t <;>
          simp [lvalueCallableZero, specZeroArgInvocable, directZeroArgCallable]
    | _ =>
        simp [lvalueCallableZero, specZeroArgInvocable, directZeroArgCallable]
  cases hdec : is_constructible_function_void c with
  | false =>
      have : specZeroArgInvocable c = false := by
        rw [← key]; exact hdec
      simp [tryMakeScopeGuardType, hdec, this]
  | true =>
      have : specZeroArgInvocable c = true := by
        rw [← key]; exact hdec
      simp [tryMakeScopeGuardType, hdec, this]
